import Mathlib

/-!
Shallow embedding of the pull-over traffic decider
(`modules/planning/tasks/traffic_decider/pull_over.cc`).

Doubles are modelled as rationals.  External collaborators (reference line
geometry, obstacle snapshot, map lane lookup, vehicle configuration, obstacle
registration) are modelled as fields of an `Env` record, read-only for one
planning cycle, exactly at the interface the source code uses.
-/

/-- Curvilinear point `(s, l)` relative to the reference line
(`common::SLPoint`). -/
structure SLPoint where
  s : ℚ
  l : ℚ
deriving DecidableEq, Repr

/-- Cartesian world point (`common::PointENU`, only `x` and `y` are used). -/
structure PointENU where
  x : ℚ
  y : ℚ
deriving DecidableEq, Repr

/-- SL-frame axis-aligned box (`SLBoundary` proto). -/
structure SLBoundary where
  start_s : ℚ
  end_s : ℚ
  start_l : ℚ
  end_l : ℚ
deriving DecidableEq, Repr

/-- One obstacle of the snapshot: the flags and the perception SL boundary
that `PullOver::IsValidStop` reads from each `PathObstacle`. -/
structure Obstacle where
  is_virtual : Bool
  is_static : Bool
  sl : SLBoundary
deriving DecidableEq, Repr

/-- Lane turn type (`hdmap::Lane::LaneTurn`). -/
inductive LaneTurn
  | NO_TURN
  | LEFT_TURN
  | RIGHT_TURN
  | U_TURN
deriving DecidableEq, Repr

/-- Lane type (`hdmap::Lane::LaneType`), only used for right neighbors. -/
inductive LaneType
  | NONE
  | CITY_DRIVING
  | BIKING
  | SIDEWALK
  | PARKING
deriving DecidableEq, Repr

/-- The lane information the scanner reads from `GetLaneFromS` results:
id, turn type, and the ids of right-neighbor forward lanes. -/
structure Lane where
  id : String
  turn : LaneTurn
  right_neighbor_ids : List String
deriving DecidableEq, Repr

/-- Reference-line interface consumed by the pull-over rule:
length, road width at s, lanes covering s, the four overlap-zone lists
(each overlap is a `(start_s, end_s)` pair), SL/XY conversion, and the
reference point (position and heading) at s. -/
structure ReferenceLine where
  length : ℚ
  roadWidthAt : ℚ → ℚ × ℚ
  lanesAt : ℚ → List Lane
  crosswalk_overlaps : List (ℚ × ℚ)
  junction_overlaps : List (ℚ × ℚ)
  clear_area_overlaps : List (ℚ × ℚ)
  speed_bump_overlaps : List (ℚ × ℚ)
  slToXY : SLPoint → PointENU
  xyToSL : PointENU → SLPoint
  refPointAt : ℚ → PointENU
  refHeadingAt : ℚ → ℚ

/-- Vehicle parameters (`VehicleConfigHelper`). -/
structure VehicleParam where
  width : ℚ
  length : ℚ

/-- The pull-over section of the traffic-rule configuration. -/
structure PullOverConfig where
  operation_length : ℚ
  buffer_to_boundary : ℚ
  max_check_distance : ℚ
  plan_distance : ℚ
  stop_distance : ℚ

/-- Everything one planning cycle reads: the reference line, the obstacle
snapshot (`path_decision->path_obstacles()`), vehicle parameters, the
configuration, the `PARKING_SPOT_LONGITUDINAL_BUFFER` constant (declared in
the header, value not fixed here), the ADC front edge arc length
(`AdcSlBoundary().end_s()`), the map lane-type lookup used for right
neighbors (`none` models a failed `GetLaneById`), and the two external
registration steps of `BuildStopDecision` (`CreateStopObstacle` and
`AddObstacle` may fail). -/
structure Env where
  refLine : ReferenceLine
  obstacles : List Obstacle
  vehicle : VehicleParam
  config : PullOverConfig
  parkingBuffer : ℚ
  adcFrontEdgeS : ℚ
  laneById : String → Option LaneType
  createStopObstacleOk : ℚ → Bool
  addObstacleOk : Bool

/-- Parking spot boundary built by `IsValidStop` (lines 105-112). -/
def parkingSpot (env : Env) (stop_point_sl : SLPoint) : SLBoundary :=
  { start_s := stop_point_sl.s - env.vehicle.length - env.parkingBuffer
    end_s := stop_point_sl.s + env.parkingBuffer
    start_l := stop_point_sl.l - env.vehicle.width / 2 -
      env.config.buffer_to_boundary
    end_l := stop_point_sl.l + env.vehicle.width / 2 }

/-- Axis-aligned SL overlap test, the negation of the separating condition of
lines 133-136. -/
def slOverlap (spot : SLBoundary) (ob : SLBoundary) : Bool :=
  !(decide (spot.start_s > ob.end_s) || decide (ob.start_s > spot.end_s) ||
    decide (spot.start_l > ob.end_l) || decide (ob.start_l > spot.end_l))

/-- Whether one obstacle invalidates the spot: virtual or non-static
obstacles are skipped (lines 125-130), the rest are tested for SL overlap
(lines 132-142). -/
def obstacleBlocks (spot : SLBoundary) (ob : Obstacle) : Bool :=
  !(ob.is_virtual || !ob.is_static) && slOverlap spot ob.sl

/-- `PullOver::IsValidStop(const SLPoint&)` (lines 88-146): reject arc
lengths outside `[0, length]`, reject insufficient clearance ahead of the
ADC front edge, then reject on any static non-virtual obstacle overlapping
the parking spot boundary. -/
def IsValidStop (env : Env) (stop_point_sl : SLPoint) : Bool :=
  if stop_point_sl.s < 0 || stop_point_sl.s > env.refLine.length then
    false
  else if stop_point_sl.s - env.adcFrontEdgeS <
      env.config.operation_length then
    false
  else
    env.obstacles.all (fun ob => !(obstacleBlocks (parkingSpot env stop_point_sl) ob))

/-- `PullOver::IsValidStop(const PointENU&)` (lines 79-86): convert to SL
first. -/
def IsValidStopXY (env : Env) (stop_point : PointENU) : Bool :=
  IsValidStop env (env.refLine.xyToSL stop_point)

/-- Whether s lies inside one overlap interval (closed on both ends). -/
def inOverlap (s : ℚ) (o : ℚ × ℚ) : Bool :=
  decide (s ≥ o.1) && decide (s ≤ o.2)

/-- `PullOver::OnOverlap` (lines 176-216): s on a crosswalk, junction,
clear-area or speed-bump overlap. -/
def OnOverlap (env : Env) (s : ℚ) : Bool :=
  env.refLine.crosswalk_overlaps.any (inOverlap s) ||
  env.refLine.junction_overlaps.any (inOverlap s) ||
  env.refLine.clear_area_overlaps.any (inOverlap s) ||
  env.refLine.speed_bump_overlaps.any (inOverlap s)

/-- `PullOver::FindPullOverStop(const double, PointENU*)` (lines 221-272):
the candidate check at a fixed arc length.  Returns `none` for the source's
`-1` and `some point` for `0` with the out-parameter value.  The lateral
offset comes from the minimum right road width sampled at the parking spot
end, the ADC center, and the parking spot start. -/
def FindPullOverStopAt (env : Env) (stop_point_s : ℚ) : Option PointENU :=
  if stop_point_s < 0 || stop_point_s > env.refLine.length then
    none
  else
    let adc_width := env.vehicle.width
    let adc_length := env.vehicle.length
    let w_end := (env.refLine.roadWidthAt (stop_point_s + env.parkingBuffer)).2
    let w_center := (env.refLine.roadWidthAt (stop_point_s - adc_length / 2)).2
    let w_start :=
      (env.refLine.roadWidthAt (stop_point_s - adc_length - env.parkingBuffer)).2
    let road_right_width := min (min w_end w_center) w_start
    let stop_point_sl : SLPoint :=
      { s := stop_point_s
        l := -(road_right_width - adc_width / 2 -
               env.config.buffer_to_boundary) }
    if IsValidStop env stop_point_sl then
      some (env.refLine.slToXY stop_point_sl)
    else
      none

/-- Lane selection of lines 288-299: with `prev_lane_id` starting empty, the
loop takes the first lane whose id differs from the empty string.  When no
lane qualifies, the `lane` shared pointer stays null and line 301
dereferences it. -/
def selectLane (lanes : List Lane) : Option Lane :=
  lanes.find? (fun l => l.id != "")

/-- Rightmost-drivable-lane check of lines 315-332: a right neighbor that
resolves in the map to a CITY_DRIVING lane disqualifies; a failed
`GetLaneById` is skipped. -/
def rightmostDrivingLane (env : Env) (lane : Lane) : Bool :=
  !(lane.right_neighbor_ids.any (fun nid =>
      match env.laneById nid with
      | some LaneType.CITY_DRIVING => true
      | _ => false))

/-- Outcome of one scanner loop iteration at a sampled arc length. -/
inductive StepOutcome
  | fault
  | disqualified
  | qualifiedNoCheck (run : ℚ)
  | validated (pt : PointENU)
  | validationFailed
deriving DecidableEq, Repr

/-- Body of the scanner loop (lines 287-360) at sample `check_s`, given the
qualifying run length accumulated so far.  `fault` is the null lane pointer
dereference of line 301 when `selectLane` finds no lane; `disqualified`
covers the turn-type, rightmost-lane and overlap-zone resets (run length
back to 0); when the run including this step reaches `plan_distance`, the
candidate check runs: `validated` returns the stop point, `validationFailed`
resets the run; otherwise the run just grows by the 5.0 step. -/
def scanStep (env : Env) (check_length : ℚ) (check_s : ℚ) : StepOutcome :=
  match selectLane (env.refLine.lanesAt check_s) with
  | none => StepOutcome.fault
  | some lane =>
    if lane.turn ≠ LaneTurn.NO_TURN then
      StepOutcome.disqualified
    else if !(rightmostDrivingLane env lane) then
      StepOutcome.disqualified
    else if OnOverlap env check_s then
      StepOutcome.disqualified
    else if check_length + 5 ≥ env.config.plan_distance then
      match FindPullOverStopAt env check_s with
      | some pt => StepOutcome.validated pt
      | none => StepOutcome.validationFailed
    else
      StepOutcome.qualifiedNoCheck (check_length + 5)

/-- Scanner result: `Except.error ()` models the crash of the null lane
pointer dereference, `Except.ok none` the source's `-1`, `Except.ok (some p)`
the source's `0` with stop point `p`. -/
abbrev ScanResult := Except Unit (Option PointENU)

deriving instance DecidableEq for Except

/-- The while loop of `PullOver::FindPullOverStop(PointENU*)`
(lines 283-361), fuel-indexed.  Each iteration first checks
`total_check_length < max_check_distance`, then advances `check_s` and
`total_check_length` by the 5.0 distance unit and runs the loop body. -/
def scanLoop (env : Env) : ℕ → ℚ → ℚ → ℚ → ScanResult
  | 0, _, _, _ => Except.ok none
  | fuel + 1, check_length, total_check_length, check_s =>
    if total_check_length < env.config.max_check_distance then
      let s := check_s + 5
      match scanStep env check_length s with
      | StepOutcome.fault => Except.error ()
      | StepOutcome.disqualified =>
          scanLoop env fuel 0 (total_check_length + 5) s
      | StepOutcome.validationFailed =>
          scanLoop env fuel 0 (total_check_length + 5) s
      | StepOutcome.validated pt => Except.ok (some pt)
      | StepOutcome.qualifiedNoCheck run =>
          scanLoop env fuel run (total_check_length + 5) s
    else
      Except.ok none

/-- Fuel sufficient for the loop: the iteration count is bounded by
`ceil (max_check_distance / 5)` since `total_check_length` grows by 5 each
iteration starting from 0. -/
def scanFuel (env : Env) : ℕ :=
  ⌈env.config.max_check_distance / 5⌉.toNat

/-- `PullOver::FindPullOverStop(PointENU*)` (lines 274-364), the forward
site scanner: starts at the ADC front edge with run length and total length
0. -/
def FindPullOverStopScan (env : Env) : ScanResult :=
  scanLoop env (scanFuel env) 0 0 env.adcFrontEdgeS

/-- The `pull_over` message of the persisted planning state
(`PullOverStatus` proto): the activation flag, the optional cached points
and heading, and the reason code (kept abstract as a string). -/
structure PullOverStatus where
  in_pull_over : Bool
  start_point : Option PointENU
  stop_point : Option PointENU
  stop_point_heading : Option ℚ
  reason : String
deriving DecidableEq, Repr

instance : Inhabited PullOverStatus :=
  ⟨{ in_pull_over := false, start_point := none, stop_point := none,
     stop_point_heading := none, reason := "" }⟩

/-- Result of `PullOver::GetPullOverStop` plus observability: `found` is the
source's return value (`true` for 0), `point` the final value of the
out-parameter (which on the cache-present-but-failed path keeps the cached
coordinates written at lines 156-157), `scanned` records whether the scanner
`FindPullOverStop(PointENU*)` was invoked. -/
structure GPResult where
  found : Bool
  point : PointENU
  scanned : Bool
deriving DecidableEq, Repr

/-- `PullOver::GetPullOverStop` (lines 151-171): when both cached points are
present, copy the cached stop point into the out-parameter and reuse it if
it still validates; otherwise fall through to the scanner. -/
def GetPullOverStop (env : Env) (st : PullOverStatus) (stop_point0 : PointENU) :
    Except Unit GPResult :=
  match st.start_point, st.stop_point with
  | some _, some cached =>
    if IsValidStopXY env cached then
      Except.ok { found := true, point := cached, scanned := false }
    else
      match FindPullOverStopScan env with
      | Except.error e => Except.error e
      | Except.ok (some pt) =>
          Except.ok { found := true, point := pt, scanned := true }
      | Except.ok none =>
          Except.ok { found := false, point := cached, scanned := true }
  | _, _ =>
    match FindPullOverStopScan env with
    | Except.error e => Except.error e
    | Except.ok (some pt) =>
        Except.ok { found := true, point := pt, scanned := true }
    | Except.ok none =>
        Except.ok { found := false, point := stop_point0, scanned := true }

/-- The longitudinal stop decision attached on success (lines 446-465):
stop line arc length, stop point coordinates, heading, and
`distance_s = -stop_distance`. -/
structure StopDecision where
  stop_line_s : ℚ
  x : ℚ
  y : ℚ
  heading : ℚ
  distance_s : ℚ
deriving DecidableEq, Repr

/-- `PullOver::BuildStopDecision` (lines 421-468): fail (`none`) when the
stop line arc length is outside `[0, length]`, when `CreateStopObstacle`
returns null, or when `AddObstacle` returns null; otherwise attach the stop
decision. -/
def BuildStopDecision (env : Env) (stop_line_s : ℚ) (stop_point : PointENU)
    (stop_point_heading : ℚ) : Option StopDecision :=
  if stop_line_s < 0 || stop_line_s > env.refLine.length then
    none
  else if !(env.createStopObstacleOk stop_line_s) then
    none
  else if !env.addObstacleOk then
    none
  else
    some { stop_line_s := stop_line_s, x := stop_point.x, y := stop_point.y,
           heading := stop_point_heading,
           distance_s := -env.config.stop_distance }

/-- `PullOver::BuildPullOverStop` (lines 366-395): build the stop decision
at the stop point's arc length, then — without inspecting the decision's
result — record start point (at `s - operation_length`, `l = 0`), stop
point and heading in the planning state.  The first component is the emitted
decision (`none` when `BuildStopDecision` failed), the second the planning
state's `pull_over` message after the call (`mutable_pull_over` creates a
default message when absent). -/
def BuildPullOverStop (env : Env) (st : Option PullOverStatus)
    (stop_point : PointENU) : Option StopDecision × Option PullOverStatus :=
  let stop_point_sl := env.refLine.xyToSL stop_point
  let stop_point_heading := env.refLine.refHeadingAt stop_point_sl.s
  let decision :=
    BuildStopDecision env stop_point_sl.s stop_point stop_point_heading
  let start_point := env.refLine.slToXY
    { s := stop_point_sl.s - env.config.operation_length, l := 0 }
  let st0 := st.getD default
  (decision,
   some { st0 with
            start_point := some start_point
            stop_point := some stop_point
            stop_point_heading := some stop_point_heading })

/-- `PullOver::BuildInLaneStop` (lines 397-419): project the passed
pull-over stop point to SL, take the reference point at that arc length as
the stop point, place the stop line `stop_distance` before it, build the
stop decision, and clear the planning state's `pull_over` message
(`clear_pull_over`). -/
def BuildInLaneStop (env : Env) (pull_over_stop_point : PointENU) :
    Option StopDecision × Option PullOverStatus :=
  let stop_point_sl := env.refLine.xyToSL pull_over_stop_point
  let p := env.refLine.refPointAt stop_point_sl.s
  let stop_point : PointENU := { x := p.x, y := p.y }
  let stop_line_s := stop_point_sl.s - env.config.stop_distance
  let stop_point_heading := env.refLine.refHeadingAt stop_point_sl.s
  let decision := BuildStopDecision env stop_line_s stop_point stop_point_heading
  (decision, none)

/-- `PullOver::ApplyRule` (lines 50-68): no-op unless the planning state has
a `pull_over` message with `in_pull_over` set; otherwise get a stop point
(cache reuse or scan, out-parameter initialized to the default-constructed
`PointENU`, i.e. the origin) and build either the full pull-over stop or the
in-lane fallback.  The result pairs the emitted decision with the planning
state's `pull_over` message after the cycle; `Except.error` propagates the
scanner fault. -/
def ApplyRule (env : Env) (st : Option PullOverStatus) :
    Except Unit (Option StopDecision × Option PullOverStatus) :=
  match st with
  | none => Except.ok (none, st)
  | some s =>
    if s.in_pull_over then
      match GetPullOverStop env s { x := 0, y := 0 } with
      | Except.error e => Except.error e
      | Except.ok r =>
        if r.found then
          Except.ok (BuildPullOverStop env st r.point)
        else
          Except.ok (BuildInLaneStop env r.point)
    else
      Except.ok (none, st)

/-!
Concrete test environments.  `flatRefLine` encodes the SL frame directly
into the plane (`slToXY` and `xyToSL` are the identity on coordinates), with
a 200-long reference line, constant road half-widths 3.5, and no overlap
zones, so the spec's example scenario can be evaluated exactly.
-/

/-- Straight flat reference line with a given lane layout. -/
def flatRefLine (lanes : ℚ → List Lane) : ReferenceLine :=
  { length := 200
    roadWidthAt := fun _ => (7/2, 7/2)
    lanesAt := lanes
    crosswalk_overlaps := []
    junction_overlaps := []
    clear_area_overlaps := []
    speed_bump_overlaps := []
    slToXY := fun sl => { x := sl.s, y := sl.l }
    xyToSL := fun p => { s := p.x, l := p.y }
    refPointAt := fun s => { x := s, y := 0 }
    refHeadingAt := fun _ => 0 }

/-- Configuration of the spec's example scenario: `operation_length = 3`,
`buffer_to_boundary = 0.3`, `plan_distance = 10`. -/
def baseConfig : PullOverConfig :=
  { operation_length := 3
    buffer_to_boundary := 3/10
    max_check_distance := 60
    plan_distance := 10
    stop_distance := 5 }

/-- Vehicle of the example scenario: width 2.1. -/
def baseVehicle : VehicleParam :=
  { width := 21/10, length := 24/5 }

/-- A plain straight lane with no right neighbors. -/
def straightLane : Lane :=
  { id := "lane_a", turn := LaneTurn.NO_TURN, right_neighbor_ids := [] }

/-- A left-turn lane: every sample is disqualified, so the scan exhausts. -/
def turnLane : Lane :=
  { id := "lane_b", turn := LaneTurn.LEFT_TURN, right_neighbor_ids := [] }

/-- Environment where `GetLaneFromS` returns no lanes anywhere and the scan
horizon is 10. -/
def envC1 : Env :=
  { refLine := flatRefLine (fun _ => [])
    obstacles := []
    vehicle := baseVehicle
    config := { baseConfig with max_check_distance := 10 }
    parkingBuffer := 1
    adcFrontEdgeS := 0
    laneById := fun _ => none
    createStopObstacleOk := fun _ => true
    addObstacleOk := true }

/-- The spec's example scenario: ADC front edge at 100, straight rightmost
lanes everywhere, no overlap zones, no obstacles, constant right road width
3.5. -/
def envC2 : Env :=
  { envC1 with
      refLine := flatRefLine (fun _ => [straightLane])
      config := baseConfig
      adcFrontEdgeS := 100 }

/-- Environment where every lane turns, so the scan exhausts without a
site; the vehicle front edge is at 50. -/
def envC3 : Env :=
  { envC1 with
      refLine := flatRefLine (fun _ => [turnLane])
      adcFrontEdgeS := 50 }

/-- Planning state that is in pull-over mode with no cached points. -/
def stC3 : PullOverStatus :=
  { in_pull_over := true, start_point := none, stop_point := none,
    stop_point_heading := none, reason := "" }

/-- Planning state in pull-over mode holding a cached stop point at
(300, 0), beyond the 200-long reference line, so the cached point no longer
validates. -/
def stC3b : PullOverStatus :=
  { in_pull_over := true
    start_point := some { x := 297, y := 0 }
    stop_point := some { x := 300, y := 0 }
    stop_point_heading := some 0
    reason := "" }

/-- Environment with straight lanes and the vehicle front edge at 10;
used for cache and validator witnesses. -/
def envC7 : Env :=
  { envC1 with
      refLine := flatRefLine (fun _ => [straightLane])
      config := baseConfig
      adcFrontEdgeS := 10 }

/-- Planning state holding a cached valid stop point at SL (20, -1). -/
def stC7 : PullOverStatus :=
  { in_pull_over := true
    start_point := some { x := 17, y := 0 }
    stop_point := some { x := 20, y := -1 }
    stop_point_heading := some 0
    reason := "" }

/-- A static non-virtual obstacle whose SL box covers [0,20] x [-3,0]. -/
def obC4 : Obstacle :=
  { is_virtual := false, is_static := true
    sl := { start_s := 0, end_s := 20, start_l := -3, end_l := 0 } }

/-- envC7 with the blocking obstacle present. -/
def envC4a : Env :=
  { envC7 with obstacles := [obC4] }

/-- envC7 with the same obstacle marked virtual. -/
def envC4b : Env :=
  { envC7 with obstacles := [{ obC4 with is_virtual := true }] }

/-!
Helper lemmas evaluating the embedded functions on the concrete
environments.
-/

theorem selectLane_straight : selectLane [straightLane] = some straightLane := by
  decide

theorem selectLane_turn : selectLane [turnLane] = some turnLane := by
  decide

theorem scanStep_envC2_qual (cl s : ℚ) (h : cl + 5 < 10) :
    scanStep envC2 cl s = StepOutcome.qualifiedNoCheck (cl + 5) := by
  simp only [scanStep, envC2, envC1, flatRefLine, selectLane_straight]
  norm_num [straightLane, rightmostDrivingLane, OnOverlap, baseConfig, h]

theorem scanStep_envC2_validated (cl : ℚ) (h : 10 ≤ cl + 5) :
    scanStep envC2 cl 110 = StepOutcome.validated { x := 110, y := -43/20 } := by
  simp only [scanStep, envC2, envC1, flatRefLine, selectLane_straight]
  norm_num [straightLane, rightmostDrivingLane, OnOverlap, baseConfig, baseVehicle, h,
    FindPullOverStopAt, IsValidStop, parkingSpot, obstacleBlocks, slOverlap]

theorem scanStep_envC2_vfail (cl s : ℚ) (h : 10 ≤ cl + 5) (h2 : (200:ℚ) < s) :
    scanStep envC2 cl s = StepOutcome.validationFailed := by
  simp only [scanStep, envC2, envC1, flatRefLine, selectLane_straight]
  norm_num [straightLane, rightmostDrivingLane, OnOverlap, baseConfig, baseVehicle, h, h2,
    FindPullOverStopAt]

theorem scanStep_envC3_disq (cl s : ℚ) :
    scanStep envC3 cl s = StepOutcome.disqualified := by
  simp only [scanStep, envC3, envC1, flatRefLine, selectLane_turn]
  rw [if_pos (by decide : turnLane.turn ≠ LaneTurn.NO_TURN)]

theorem scan_envC2 :
    FindPullOverStopScan envC2 = Except.ok (some { x := 110, y := -43/20 }) := by
  have e : scanFuel envC2 = 12 := by
    norm_num [scanFuel, envC2, envC1, baseConfig]
    decide
  rw [FindPullOverStopScan, e, show envC2.adcFrontEdgeS = 100 from rfl]
  rw [show (12:ℕ) = 11+1 from rfl, scanLoop]
  rw [if_pos (by norm_num [envC2, envC1, baseConfig] :
        (0:ℚ) < envC2.config.max_check_distance)]
  norm_num [scanStep_envC2_qual 0 105 (by norm_num)]
  rw [show (11:ℕ) = 10+1 from rfl, scanLoop]
  rw [if_pos (by norm_num [envC2, envC1, baseConfig] :
        (5:ℚ) < envC2.config.max_check_distance)]
  norm_num [scanStep_envC2_validated 5 (by norm_num)]

theorem scan_envC3 : FindPullOverStopScan envC3 = Except.ok none := by
  have e : scanFuel envC3 = 2 := by
    norm_num [scanFuel, envC3, envC1, baseConfig]
    decide
  rw [FindPullOverStopScan, e, show envC3.adcFrontEdgeS = 50 from rfl]
  rw [show (2:ℕ) = 1+1 from rfl, scanLoop]
  rw [if_pos (by norm_num [envC3, envC1, baseConfig] :
        (0:ℚ) < envC3.config.max_check_distance)]
  norm_num [scanStep_envC3_disq]
  rw [show (1:ℕ) = 0+1 from rfl, scanLoop]
  rw [if_pos (by norm_num [envC3, envC1, baseConfig] :
        (5:ℚ) < envC3.config.max_check_distance)]
  norm_num [scanStep_envC3_disq, scanLoop]

/-!
Claim theorems.
-/

/-- C1: the claim states that the Forward Site Scanner always terminates
without fault even when `GetLaneFromS` returns no lanes at a sampled arc
length.  The code instead dereferences the null `lane` shared pointer at
line 301 in that situation.  This theorem evaluates the scanner at the
failing input `envC1` (positive `max_check_distance = 10`, lane lookup
empty everywhere): the run reaches the fault on its very first sample. -/
theorem c1_scanner_faults_on_missing_lane_data :
    FindPullOverStopScan envC1 = Except.error () := by
  have e : scanFuel envC1 = 2 := by
    norm_num [scanFuel, envC1, baseConfig]
    decide
  rw [FindPullOverStopScan, e, show envC1.adcFrontEdgeS = 0 from rfl]
  rw [show (2:ℕ) = 1+1 from rfl, scanLoop]
  rw [if_pos (by norm_num [envC1, baseConfig] :
        (0:ℚ) < envC1.config.max_check_distance)]
  norm_num [scanStep, envC1, flatRefLine, selectLane]

/-- C2 counterexample: in the spec's example scenario (front edge 100,
`operation_length = 3`, `plan_distance = 10`, straight rightmost lanes, no
overlaps or obstacles, right road width 3.5, vehicle width 2.1,
`buffer_to_boundary = 0.3`) the Scanner samples at 105, 110, ... and
selects `check_s = 110` — not 113 as the claim states: 113 is not even a
sampled arc length.  The lateral offset -2.15 = -43/20 is as claimed. -/
theorem c2_counterexample_scanner_selects_110_not_113 :
    FindPullOverStopScan envC2 = Except.ok (some { x := 110, y := -43/20 }) ∧
    (110 : ℚ) ≠ 113 :=
  ⟨scan_envC2, by norm_num⟩

/-- C2 amended: in the example scenario the Scanner selects `check_s = 110`
(the first sampled point at which the qualifying run reaches 10), with
lateral offset `-(3.5 - 1.05 - 0.3) = -2.15`, and the validator accepts
(110, -2.15). -/
theorem c2_scenario_selects_110 :
    FindPullOverStopScan envC2 = Except.ok (some { x := 110, y := -43/20 }) ∧
    IsValidStop envC2 { s := 110, l := -43/20 } = true ∧
    (-(7/2 - (21/10)/2 - 3/10) : ℚ) = -43/20 :=
  ⟨scan_envC2,
   by norm_num [IsValidStop, envC2, envC1, flatRefLine, baseConfig],
   by norm_num⟩

/-- C5: the validator rejects every candidate whose arc length is less than
`operation_length` ahead of the vehicle front edge, regardless of the
obstacle snapshot. -/
theorem c5_minimum_clearance (env : Env) (sl : SLPoint)
    (h : sl.s - env.adcFrontEdgeS < env.config.operation_length) :
    IsValidStop env sl = false := by
  simp only [IsValidStop]
  split <;> rfl

/-- C5 witness: at `envC7` (front edge 10, `operation_length` 3) the
candidate s = 11 has clearance 1 < 3 and is rejected. -/
theorem c5_minimum_clearance_witness :
    (11:ℚ) - envC7.adcFrontEdgeS < envC7.config.operation_length ∧
    IsValidStop envC7 { s := 11, l := 0 } = false :=
  ⟨by norm_num [envC7, envC1, baseConfig],
   c5_minimum_clearance envC7 { s := 11, l := 0 }
     (by norm_num [envC7, envC1, baseConfig])⟩

/-- C9: a candidate or cached arc length outside `[0, length]` produces the
failure result of the function that detects it: `IsValidStop` returns
false, the candidate check `FindPullOverStopAt` returns none (the source's
-1), and `BuildStopDecision` returns none (the source's -1). -/
theorem c9_out_of_range_yields_failure (env : Env) (sl : SLPoint) (s : ℚ)
    (pt : PointENU) (heading : ℚ)
    (hsl : sl.s < 0 ∨ sl.s > env.refLine.length)
    (hs : s < 0 ∨ s > env.refLine.length) :
    IsValidStop env sl = false ∧
    FindPullOverStopAt env s = none ∧
    BuildStopDecision env s pt heading = none := by
  refine ⟨?_, ?_, ?_⟩
  · simp only [IsValidStop]
    rw [if_pos (by simpa using hsl)]
  · simp only [FindPullOverStopAt]
    rw [if_pos (by simpa using hs)]
  · simp only [BuildStopDecision]
    rw [if_pos (by simpa using hs)]

/-- C9 witness: at `envC7` the arc length -1 is out of range and all three
functions fail. -/
theorem c9_out_of_range_yields_failure_witness :
    ((-1:ℚ) < 0 ∨ (-1:ℚ) > envC7.refLine.length) ∧
    (IsValidStop envC7 { s := -1, l := 0 } = false ∧
     FindPullOverStopAt envC7 (-1) = none ∧
     BuildStopDecision envC7 (-1) { x := 0, y := 0 } 0 = none) :=
  ⟨Or.inl (by norm_num),
   c9_out_of_range_yields_failure envC7 { s := -1, l := 0 } (-1)
     { x := 0, y := 0 } 0 (Or.inl (by norm_num)) (Or.inl (by norm_num))⟩

/-- C10: `BuildPullOverStop` records start point, stop point and heading in
the planning state unconditionally — also when `BuildStopDecision` fails,
as at `envC7` with a stop point projecting to s = -5 (out of range), where
no decision is emitted yet the state caches the point. -/
theorem c10_state_persisted_despite_decision_failure :
    (∀ (env : Env) (st : Option PullOverStatus) (pt : PointENU),
      ∃ q, (BuildPullOverStop env st pt).2 = some q ∧
        q.stop_point = some pt ∧ q.start_point.isSome = true ∧
        q.stop_point_heading.isSome = true) ∧
    (BuildPullOverStop envC7 none { x := -5, y := 0 }).1 = none ∧
    (∃ q, (BuildPullOverStop envC7 none { x := -5, y := 0 }).2 = some q ∧
      q.stop_point = some { x := -5, y := 0 }) := by
  refine ⟨fun env st pt => ⟨_, rfl, rfl, rfl, rfl⟩, ?_, ⟨_, rfl, rfl⟩⟩
  norm_num [BuildPullOverStop, BuildStopDecision, envC7, envC1, flatRefLine]

/-- C3 counterexample: with no cached point and the scan exhausted, the
fallback is built from the default-constructed out-parameter point (origin),
not from the vehicle's current arc length.  At `envC3` the vehicle front
edge is at 50 and the origin projects to s = 0, so the emitted stop line
would be at -5 (out of range) and no decision is emitted at all — while a
fallback placed at the vehicle's current arc length (stop line 45) would
have produced a stop decision. -/
theorem c3_counterexample_fallback_not_at_vehicle :
    ApplyRule envC3 (some stC3) = Except.ok (none, none) ∧
    BuildStopDecision envC3 (envC3.adcFrontEdgeS - envC3.config.stop_distance)
        (envC3.refLine.refPointAt envC3.adcFrontEdgeS)
        (envC3.refLine.refHeadingAt envC3.adcFrontEdgeS) =
      some { stop_line_s := 45, x := 50, y := 0, heading := 0,
             distance_s := -5 } := by
  constructor
  · have hg : GetPullOverStop envC3 stC3 { x := 0, y := 0 } =
        Except.ok { found := false, point := { x := 0, y := 0 },
                    scanned := true } := by
      simp only [GetPullOverStop, stC3, scan_envC3]
    simp only [ApplyRule, show stC3.in_pull_over = true from rfl, if_true, hg]
    norm_num [BuildInLaneStop, BuildStopDecision, envC3, envC1, flatRefLine,
      baseConfig]
  · norm_num [BuildStopDecision, envC3, envC1, flatRefLine, baseConfig]

/-- C3 amended: whenever pull-over is active and the Scanner exhausts
(returns none), `ApplyRule` emits the in-lane fallback built from the
passed stop point — the cached stop point when both cached points were
present (and the cached point no longer validates, which is what sent the
cycle to the Scanner), otherwise the default-constructed origin point — so
the fallback is placed at the projection of that passed point, not at the
vehicle's current arc length, and it clears the state. -/
theorem c3_fallback_uses_passed_point (env : Env) (st : PullOverStatus)
    (h1 : st.in_pull_over = true)
    (hscan : FindPullOverStopScan env = Except.ok none) :
    (st.start_point = none ∨ st.stop_point = none →
      ApplyRule env (some st) =
        Except.ok (BuildInLaneStop env { x := 0, y := 0 })) ∧
    (∀ a c : PointENU, st.start_point = some a → st.stop_point = some c →
      IsValidStopXY env c = false →
      ApplyRule env (some st) = Except.ok (BuildInLaneStop env c)) := by
  constructor
  · intro hd
    have hg : GetPullOverStop env st { x := 0, y := 0 } =
        Except.ok { found := false, point := { x := 0, y := 0 },
                    scanned := true } := by
      rcases hstart : st.start_point with _ | a
      · simp only [GetPullOverStop, hstart, hscan]
      · rcases hd with h | h
        · rw [hstart] at h; simp at h
        · simp only [GetPullOverStop, hstart, h, hscan]
    simp only [ApplyRule, h1, if_true, hg]
    simp
  · intro a c hstart hstop hinv
    have hg : GetPullOverStop env st { x := 0, y := 0 } =
        Except.ok { found := false, point := c, scanned := true } := by
      simp only [GetPullOverStop, hstart, hstop, hinv, hscan]
      simp
    simp only [ApplyRule, h1, if_true, hg]
    simp

/-- C3 witness: the amended statement instantiated at `envC3` for both
branches — the no-cache state `stC3` (fallback from the origin) and the
cached-but-invalid state `stC3b` (fallback from the cached point
(300, 0)). -/
theorem c3_fallback_uses_passed_point_witness :
    (stC3.in_pull_over = true ∧ stC3.start_point = none ∧
     FindPullOverStopScan envC3 = Except.ok none ∧
     ApplyRule envC3 (some stC3) =
       Except.ok (BuildInLaneStop envC3 { x := 0, y := 0 })) ∧
    (stC3b.in_pull_over = true ∧
     stC3b.start_point = some { x := 297, y := 0 } ∧
     stC3b.stop_point = some { x := 300, y := 0 } ∧
     IsValidStopXY envC3 { x := 300, y := 0 } = false ∧
     ApplyRule envC3 (some stC3b) =
       Except.ok (BuildInLaneStop envC3 { x := 300, y := 0 })) := by
  have hinv : IsValidStopXY envC3 { x := 300, y := 0 } = false := by
    norm_num [IsValidStopXY, IsValidStop, envC3, envC1, flatRefLine]
  exact ⟨⟨rfl, rfl, scan_envC3,
      (c3_fallback_uses_passed_point envC3 stC3 rfl scan_envC3).1
        (Or.inl rfl)⟩,
    ⟨rfl, rfl, rfl, hinv,
      (c3_fallback_uses_passed_point envC3 stC3b rfl scan_envC3).2
        { x := 297, y := 0 } { x := 300, y := 0 } rfl rfl hinv⟩⟩

/-- C4: the validator returns false for every candidate when a static
non-virtual obstacle of the snapshot overlaps the parking spot boundary in
SL; and with that same obstacle marked virtual or non-static (as the only
obstacle), an in-range candidate with sufficient clearance passes. -/
theorem c4_validator_obstacle_overlap (env : Env) (sl : SLPoint)
    (ob : Obstacle) :
    (ob ∈ env.obstacles → ob.is_virtual = false → ob.is_static = true →
      slOverlap (parkingSpot env sl) ob.sl = true →
      IsValidStop env sl = false) ∧
    (env.obstacles = [ob] →
      ob.is_virtual = true ∨ ob.is_static = false →
      0 ≤ sl.s → sl.s ≤ env.refLine.length →
      env.config.operation_length ≤ sl.s - env.adcFrontEdgeS →
      IsValidStop env sl = true) := by
  constructor
  · intro hmem hv hs hov
    simp only [IsValidStop]
    split
    · rfl
    · split
      · rfl
      · have hb : obstacleBlocks (parkingSpot env sl) ob = true := by
          simp [obstacleBlocks, hv, hs, hov]
        cases hall : env.obstacles.all
            (fun o => !(obstacleBlocks (parkingSpot env sl) o)) with
        | false => rfl
        | true =>
          have hmm := List.all_eq_true.mp hall ob hmem
          rw [hb] at hmm
          simp at hmm
  · intro hobs hvs h0 hl hop
    simp only [IsValidStop]
    rw [if_neg, if_neg]
    · rw [hobs]
      have hnb : obstacleBlocks (parkingSpot env sl) ob = false := by
        rcases hvs with h | h <;> simp [obstacleBlocks, h]
      simp [hnb]
    · exact not_lt.mpr hop
    · simp only [Bool.or_eq_true, decide_eq_true_eq, not_or, not_lt]
      exact ⟨h0, hl⟩

/-- C4 witness: at sl = (15, -2) in `envC4a` the static obstacle with SL box
[0,20] x [-3,0] overlaps the parking spot and the validator rejects; in
`envC4b` the identical obstacle is virtual and the validator accepts. -/
theorem c4_validator_obstacle_overlap_witness :
    obC4 ∈ envC4a.obstacles ∧ obC4.is_virtual = false ∧
    obC4.is_static = true ∧
    slOverlap (parkingSpot envC4a { s := 15, l := -2 }) obC4.sl = true ∧
    IsValidStop envC4a { s := 15, l := -2 } = false ∧
    envC4b.obstacles = [{ obC4 with is_virtual := true }] ∧
    IsValidStop envC4b { s := 15, l := -2 } = true := by
  have hov : slOverlap (parkingSpot envC4a { s := 15, l := -2 }) obC4.sl =
      true := by
    norm_num [slOverlap, parkingSpot, envC4a, envC7, envC1, baseVehicle,
      baseConfig, obC4]
  refine ⟨by simp [envC4a, envC7, envC1], rfl, rfl, hov, ?_, rfl, ?_⟩
  · exact (c4_validator_obstacle_overlap envC4a { s := 15, l := -2 } obC4).1
      (by simp [envC4a, envC7, envC1]) rfl rfl hov
  · exact (c4_validator_obstacle_overlap envC4b { s := 15, l := -2 }
      { obC4 with is_virtual := true }).2 rfl (Or.inl rfl)
      (by norm_num) (by norm_num [envC4b, envC7, envC1, flatRefLine])
      (by norm_num [envC4b, envC7, envC1, baseConfig])

/-- C6: in one scanner iteration, a turn lane, a non-rightmost lane or an
overlap zone yields a `disqualified` outcome (the loop then continues with
run length 0); a passing sample whose incremented run reaches
`plan_distance` (the comparison is `>=`, so exactly reaching it suffices)
triggers the candidate validation; one step less does not; and a
`disqualified` or `validationFailed` outcome makes the loop recurse with
run length reset to 0. -/
theorem c6_run_reset_and_threshold (env : Env) (lane : Lane)
    (check_length total check_s : ℚ) (fuel : ℕ) :
    (selectLane (env.refLine.lanesAt check_s) = some lane →
      lane.turn ≠ LaneTurn.NO_TURN ∨ rightmostDrivingLane env lane = false ∨
        OnOverlap env check_s = true →
      scanStep env check_length check_s = StepOutcome.disqualified) ∧
    (selectLane (env.refLine.lanesAt check_s) = some lane →
      lane.turn = LaneTurn.NO_TURN → rightmostDrivingLane env lane = true →
      OnOverlap env check_s = false →
      env.config.plan_distance ≤ check_length + 5 →
      scanStep env check_length check_s =
        (match FindPullOverStopAt env check_s with
          | some pt => StepOutcome.validated pt
          | none => StepOutcome.validationFailed)) ∧
    (selectLane (env.refLine.lanesAt check_s) = some lane →
      lane.turn = LaneTurn.NO_TURN → rightmostDrivingLane env lane = true →
      OnOverlap env check_s = false →
      check_length + 5 < env.config.plan_distance →
      scanStep env check_length check_s =
        StepOutcome.qualifiedNoCheck (check_length + 5)) ∧
    (total < env.config.max_check_distance →
      scanStep env check_length (check_s + 5) = StepOutcome.disqualified →
      scanLoop env (fuel + 1) check_length total check_s =
        scanLoop env fuel 0 (total + 5) (check_s + 5)) ∧
    (total < env.config.max_check_distance →
      scanStep env check_length (check_s + 5) = StepOutcome.validationFailed →
      scanLoop env (fuel + 1) check_length total check_s =
        scanLoop env fuel 0 (total + 5) (check_s + 5)) := by
  refine ⟨?_, ?_, ?_, ?_, ?_⟩
  · intro hsel hd
    simp only [scanStep, hsel]
    rcases hd with h | h | h
    · rw [if_pos h]
    · by_cases ht : lane.turn = LaneTurn.NO_TURN
      · rw [if_neg (fun hh => hh ht), if_pos (by simp [h])]
      · rw [if_pos ht]
    · by_cases ht : lane.turn = LaneTurn.NO_TURN
      · cases hr : rightmostDrivingLane env lane with
        | false => rw [if_neg (fun hh => hh ht), if_pos (by simp [hr])]
        | true => rw [if_neg (fun hh => hh ht), if_neg (by simp [hr]), if_pos h]
      · rw [if_pos ht]
  · intro hsel ht hr hov hplan
    simp only [scanStep, hsel]
    rw [if_neg (fun hh => hh ht), if_neg (by simp [hr]), if_neg (by simp [hov]),
      if_pos hplan]
  · intro hsel ht hr hov hlt
    simp only [scanStep, hsel]
    rw [if_neg (fun hh => hh ht), if_neg (by simp [hr]), if_neg (by simp [hov]),
      if_neg (not_le.mpr hlt)]
  · intro htot hstep
    conv_lhs => rw [scanLoop]
    rw [if_pos htot]
    simp only [hstep]
  · intro htot hstep
    conv_lhs => rw [scanLoop]
    rw [if_pos htot]
    simp only [hstep]

/-- C6 witness: concrete instances — a turn-lane sample disqualifies
(`envC3`), a passing sample with run 5 + 5 = 10 = `plan_distance` triggers
validation (`envC2` at 110), a passing sample with run 0 + 5 < 10 does not
(`envC2` at 105), and disqualified / failed-validation iterations recurse
with run length 0. -/
theorem c6_run_reset_and_threshold_witness :
    scanStep envC3 0 55 = StepOutcome.disqualified ∧
    scanStep envC2 5 110 =
      (match FindPullOverStopAt envC2 110 with
        | some pt => StepOutcome.validated pt
        | none => StepOutcome.validationFailed) ∧
    scanStep envC2 0 105 = StepOutcome.qualifiedNoCheck (0 + 5) ∧
    scanLoop envC3 1 0 0 50 = scanLoop envC3 0 0 (0 + 5) (50 + 5) ∧
    scanLoop envC2 1 5 0 200 = scanLoop envC2 0 0 (0 + 5) (200 + 5) := by
  refine ⟨?_, ?_, ?_, ?_, ?_⟩
  · exact (c6_run_reset_and_threshold envC3 turnLane 0 0 55 0).1
      (by decide) (Or.inl (by decide))
  · exact (c6_run_reset_and_threshold envC2 straightLane 5 0 110 0).2.1
      (by decide) (by decide) (by decide) (by decide)
      (by norm_num [envC2, envC1, baseConfig])
  · exact (c6_run_reset_and_threshold envC2 straightLane 0 0 105 0).2.2.1
      (by decide) (by decide) (by decide) (by decide)
      (by norm_num [envC2, envC1, baseConfig])
  · exact (c6_run_reset_and_threshold envC3 turnLane 0 0 50 0).2.2.2.1
      (by norm_num [envC3, envC1, baseConfig]) (scanStep_envC3_disq 0 (50 + 5))
  · exact (c6_run_reset_and_threshold envC2 straightLane 5 0 200 0).2.2.2.2
      (by norm_num [envC2, envC1, baseConfig])
      (scanStep_envC2_vfail 5 (200 + 5) (by norm_num) (by norm_num))

/-- C7: with both cached points present and the cached stop point still
validating, `GetPullOverStop` returns the cached point without invoking the
Scanner, `ApplyRule` builds the full pull-over stop from that cached point,
and the re-persisted state's stop point equals the cached one. -/
theorem c7_cache_reuse (env : Env) (st : PullOverStatus) (p0 a c : PointENU)
    (h1 : st.start_point = some a) (h2 : st.stop_point = some c)
    (h3 : IsValidStopXY env c = true) :
    GetPullOverStop env st p0 =
      Except.ok { found := true, point := c, scanned := false } ∧
    (st.in_pull_over = true →
      ApplyRule env (some st) =
        Except.ok (BuildPullOverStop env (some st) c)) ∧
    (BuildPullOverStop env (some st) c).2.map (fun q => q.stop_point) =
      some (some c) := by
  have hgf : ∀ q : PointENU, GetPullOverStop env st q =
      Except.ok { found := true, point := c, scanned := false } := by
    intro q
    simp only [GetPullOverStop, h1, h2, h3, if_true]
  refine ⟨hgf p0, fun h4 => ?_, rfl⟩
  simp only [ApplyRule, h4, if_true, hgf]

/-- C7 witness: at `envC7` the cached stop point (20, -1) is valid and
reused. -/
theorem c7_cache_reuse_witness :
    IsValidStopXY envC7 { x := 20, y := -1 } = true ∧
    GetPullOverStop envC7 stC7 { x := 0, y := 0 } =
      Except.ok { found := true, point := { x := 20, y := -1 },
                  scanned := false } ∧
    ApplyRule envC7 (some stC7) =
      Except.ok (BuildPullOverStop envC7 (some stC7) { x := 20, y := -1 }) := by
  have hv : IsValidStopXY envC7 { x := 20, y := -1 } = true := by
    norm_num [IsValidStopXY, IsValidStop, envC7, envC1, flatRefLine, baseConfig]
  have h := c7_cache_reuse envC7 stC7 { x := 0, y := 0 } { x := 17, y := 0 }
    { x := 20, y := -1 } rfl rfl hv
  exact ⟨hv, h.1, h.2.1 rfl⟩

/-- C8: the in-lane fallback clears the planning state's `pull_over`
message entirely (no start point, stop point or heading remains), and any
successful `GetPullOverStop` on a state with a missing cached point goes
through the Scanner (`scanned = true`), so the next active cycle rescans
rather than reusing a stale point. -/
theorem c8_fallback_clears_state (env env2 : Env) (p p2 : PointENU)
    (st2 : PullOverStatus) (r : GPResult) :
    (BuildInLaneStop env p).2 = none ∧
    (st2.start_point = none ∨ st2.stop_point = none →
      GetPullOverStop env2 st2 p2 = Except.ok r → r.scanned = true) := by
  refine ⟨rfl, fun hd hg => ?_⟩
  rcases hstart : st2.start_point with _ | a
  · unfold GetPullOverStop at hg
    rw [hstart] at hg
    cases hscan : FindPullOverStopScan env2 with
    | error e => rw [hscan] at hg; simp at hg
    | ok o =>
      cases o with
      | none => rw [hscan] at hg; cases hg; rfl
      | some pt => rw [hscan] at hg; cases hg; rfl
  · rcases hd with h | h
    · rw [hstart] at h; simp at h
    · unfold GetPullOverStop at hg
      rw [hstart, h] at hg
      cases hscan : FindPullOverStopScan env2 with
      | error e => rw [hscan] at hg; simp at hg
      | ok o =>
        cases o with
        | none => rw [hscan] at hg; cases hg; rfl
        | some pt => rw [hscan] at hg; cases hg; rfl

/-- C8 witness: at `envC3` (scan exhausts) with the empty-cache state the
fallback state is cleared and the reported result went through the
Scanner. -/
theorem c8_fallback_clears_state_witness :
    (BuildInLaneStop envC3 { x := 0, y := 0 }).2 = none ∧
    GetPullOverStop envC3 stC3 { x := 0, y := 0 } =
      Except.ok { found := false, point := { x := 0, y := 0 },
                  scanned := true } ∧
    ({ found := false, point := { x := 0, y := 0 },
       scanned := true } : GPResult).scanned = true := by
  have hg : GetPullOverStop envC3 stC3 { x := 0, y := 0 } =
      Except.ok { found := false, point := { x := 0, y := 0 },
                  scanned := true } := by
    simp only [GetPullOverStop, stC3, scan_envC3]
  exact ⟨(c8_fallback_clears_state envC3 envC3 { x := 0, y := 0 }
          { x := 0, y := 0 } stC3
          { found := false, point := { x := 0, y := 0 }, scanned := true }).1,
    hg,
    (c8_fallback_clears_state envC3 envC3 { x := 0, y := 0 }
          { x := 0, y := 0 } stC3
          { found := false, point := { x := 0, y := 0 }, scanned := true }).2
      (Or.inl rfl) hg⟩
